import Mathlib

/-!
Verification development for deploy_lab.py, the deployment automation script
of the Docker Escape Detection Lab.  The file gives a shallow embedding of
the core of the script: the step loop of LabDeployment.deploy, the readiness
polling loop of wait_for_services, the prerequisite checks, the filesystem
effects of create_project_structure, the exception behaviour of
deploy_services, the alert counting of run_tests, and the configuration
loading done in main.  Exceptions are modelled with Except, the ambient
system with explicit environment records, and the filesystem as lists of
paths (a path is a list of name components).
-/

namespace DeployLab

/-- Python exception kinds relevant to deploy_lab.py: OSError as raised by
os.chdir, and subprocess.CalledProcessError as raised by subprocess.run with
check equal to True. -/
inductive PyExn where
| osError (msg : String)
| calledProcessError (cmd : String)
deriving DecidableEq

/-- The step loop of LabDeployment.deploy (deploy_lab.py lines 595-600).
Each entry pairs a step name with the outcome of invoking its action:
Except.ok b when the action returned the Bool b, and Except.error e when the
action raised an uncaught exception e.  The value returned is the list of
step names whose action the loop invoked, together with either the
propagated exception or the pair of the completed-steps record
(self.deployment_steps) and the overall Bool result.  A step that returns
False is logged as the failed step and ends the run with ([], false)
appended after the names completed so far; a step that raises ends the whole
call with that exception. -/
def runStepsExc : List (String × Except PyExn Bool) →
    List String × Except PyExn (List String × Bool)
| [] => ([], Except.ok ([], true))
| (name, r) :: rest =>
  match r with
  | Except.error e => ([name], Except.error e)
  | Except.ok false => ([name], Except.ok ([], false))
  | Except.ok true =>
    let tail := runStepsExc rest
    (name :: tail.1,
      match tail.2 with
      | Except.error e => Except.error e
      | Except.ok (done, b) => Except.ok (name :: done, b))

/-- Which fatal prerequisite check failed first, following the order of
check_prerequisites (deploy_lab.py lines 40-71). -/
inductive PrereqFailure where
| dockerMissing
| composeMissing
| daemonDown
deriving DecidableEq

/-- Ambient system state consulted by check_prerequisites: shutil.which
lookups, the exit code of the docker info probe, and the free bytes reported
by shutil.disk_usage. -/
structure SysEnv where
  onPath : String → Bool
  dockerInfoExit : Nat
  freeBytes : Nat

/-- Result of check_prerequisites: the first fatal check that failed (if
any), whether the low-disk warning was logged, and the returned Bool. -/
structure PrereqResult where
  firstFatal : Option PrereqFailure
  lowDiskWarning : Bool
  ok : Bool
deriving DecidableEq

/-- check_prerequisites (deploy_lab.py lines 40-71): docker on PATH, then
docker-compose or docker compose on PATH, then docker info exiting zero;
each failing check returns False at once.  The disk check compares free
space against 10 GB and only logs a warning; the method still returns
True. -/
def check_prerequisites (env : SysEnv) : PrereqResult :=
  if !(env.onPath "docker") then
    ⟨some PrereqFailure.dockerMissing, false, false⟩
  else if !(env.onPath "docker-compose") && !(env.onPath "docker compose") then
    ⟨some PrereqFailure.composeMissing, false, false⟩
  else if env.dockerInfoExit != 0 then
    ⟨some PrereqFailure.daemonDown, false, false⟩
  else
    ⟨none, decide (env.freeBytes < 10 * 1024 ^ 3), true⟩

/-- Filesystem model: files as pairs of a path (list of components) and its
byte content, plus the list of directory paths present. -/
structure FS where
  files : List (List String × String)
  dirs : List (List String)
deriving DecidableEq

/-- Path.exists for the lab directory: present as a directory or as a
file. -/
def pathExists (p : List String) (fs : FS) : Bool :=
  fs.dirs.contains p || fs.files.any (fun f => f.1 == p)

/-- Move a path from under src to under dst, the per-path effect of
os.rename on the renamed subtree; paths not under src are unchanged. -/
def rebasePath (src dst p : List String) : List String :=
  if src.isPrefixOf p then dst ++ p.drop src.length else p

/-- Path.rename: every file and directory under src now lives under dst
with identical content. -/
def renameFS (src dst : List String) (fs : FS) : FS :=
  ⟨fs.files.map (fun f => (rebasePath src dst f.1, f.2)),
   fs.dirs.map (rebasePath src dst)⟩

/-- The nonempty leading portions of a path, shortest first: the chain of
directories that mkdir with parents equal to True creates. -/
def prefixesOf : List String → List (List String)
| [] => []
| a :: rest => [a] :: (prefixesOf rest).map (a :: ·)

/-- Record a directory, keeping the existing entry when already present:
mkdir with exist_ok equal to True is not an error on an existing
directory. -/
def insertDir (ds : List (List String)) (d : List String) : List (List String) :=
  if d ∈ ds then ds else ds ++ [d]

/-- Path.mkdir with parents and exist_ok both True (deploy_lab.py line 98):
creates the whole chain of directories leading to p. -/
def mkdirP (p : List String) (fs : FS) : FS :=
  ⟨fs.files, (prefixesOf p).foldl insertDir fs.dirs⟩

/-- The directories list of create_project_structure (deploy_lab.py lines
85-95), each as path components relative to the lab directory. -/
def labSubdirs : List (List String) :=
  [["configs", "falco"], ["configs", "filebeat"], ["configs", "xsiam"],
   ["logs", "falco"], ["logs", "filebeat"], ["logs", "response"],
   ["scripts", "response"], ["scripts", "automation"], ["data"]]

/-- The directory-creation loop of create_project_structure (deploy_lab.py
lines 97-98). -/
def mkdirTree (labDir : String) (fs : FS) : FS :=
  labSubdirs.foldl (fun acc d => mkdirP (labDir :: d) acc) fs

/-- The timestamped backup name (deploy_lab.py line 80). -/
def backupName (labDir : String) (now : Nat) : String :=
  labDir ++ ".backup." ++ toString now

/-- create_project_structure (deploy_lab.py lines 73-105): if the lab
directory exists it is renamed to the timestamped backup name, then the
directory tree is created; returns the new filesystem and the Bool
result. -/
def create_project_structure (labDir : String) (now : Nat) (fs : FS) :
    FS × Bool :=
  let fs1 := if pathExists [labDir] fs
    then renameFS [labDir] [backupName labDir now] fs else fs
  (mkdirTree labDir fs1, true)

/-- The files living under path p, as pairs of their path relative to p and
their content. -/
def filesUnder (p : List String) (fs : FS) : List (List String × String) :=
  (fs.files.filter (fun f => p.isPrefixOf f.1)).map
    (fun f => (f.1.drop p.length, f.2))

/-- Ambient state consulted by deploy_services: the exception (if any)
raised by os.chdir, and the exit codes of the two docker compose calls. -/
structure ServicesEnv where
  chdirExn : Option PyExn
  pullExit : Nat
  upExit : Nat

/-- deploy_services (deploy_lab.py lines 420-441): chdir into the lab
directory, run docker compose pull then docker compose up -d with check
equal to True, so a non-zero exit raises CalledProcessError.  The except
clause catches only subprocess.CalledProcessError and converts it to the
Bool result False; any other exception leaves the method uncaught. -/
def deploy_services (env : ServicesEnv) : Except PyExn Bool :=
  let body : Except PyExn Bool :=
    match env.chdirExn with
    | some e => Except.error e
    | none =>
      if env.pullExit != 0 then
        Except.error (PyExn.calledProcessError "docker compose pull")
      else if env.upExit != 0 then
        Except.error (PyExn.calledProcessError "docker compose up -d")
      else Except.ok true
  match body with
  | Except.error (PyExn.calledProcessError _) => Except.ok false
  | Except.error e => Except.error e
  | Except.ok b => Except.ok b

/-- Outcome of one requests.get probe: a response with the given status
code, or a requests.exceptions.RequestException. -/
inductive ProbeOutcome where
| ok (status : Nat)
| netError
deriving DecidableEq

/-- The success test of the polling loop: a response arrived and its status
code is 200; a network error is swallowed and counts as not ready. -/
def isReady : ProbeOutcome → Bool
| ProbeOutcome.ok s => s == 200
| ProbeOutcome.netError => false

/-- The inner polling loop of wait_for_services (deploy_lab.py lines
454-466) for one target, driven by the outcome of each attempt.  Arguments
are the attempts remaining out of 30 and the current attempt index; the
result counts the GET requests issued and the sleeps performed, and reports
whether the loop ended by break (true, the target answered 200) or by
exhaustion (false, the for-else logs the warning).  No sleep happens after
a success, and none after attempt index 29. -/
def pollTarget (probe : Nat → ProbeOutcome) : Nat → Nat → Nat × Nat × Bool
| 0, _ => (0, 0, false)
| remaining + 1, attempt =>
  if isReady (probe attempt) then (1, 0, true)
  else
    let slept := if attempt < 29 then 1 else 0
    let r := pollTarget probe remaining (attempt + 1)
    (1 + r.1, slept + r.2.1, r.2.2)

/-- wait_for_services (deploy_lab.py lines 443-468): polls each target in
order with up to 30 attempts and returns True unconditionally.  The first
component records, per target in order, the requests issued, the sleeps
performed and whether the target became ready. -/
def wait_for_services (targets : List (String × (Nat → ProbeOutcome))) :
    List (String × (Nat × Nat × Bool)) × Bool :=
  (targets.map (fun t => (t.1, pollTarget t.2 30 0)), true)

/-- An entry of the services dict of wait_for_services together with the
HTTP method used to probe it (requests.get, hence GET). -/
structure HttpProbe where
  service : String
  method : String
  url : String
deriving DecidableEq

/-- The services dict of wait_for_services (deploy_lab.py lines 447-450). -/
def readiness_targets : List HttpProbe :=
  [⟨"Elasticsearch", "GET", "http://localhost:9200/_cluster/health"⟩,
   ⟨"Kibana", "GET", "http://localhost:5601"⟩]

/-- The localhost URL scheme and authority shared by the probe URLs. -/
def httpLocalhost : List Char := "http://localhost:".toList

/-- The local port named by a probe URL, when the URL is a plain HTTP URL
on localhost with an explicit port. -/
def urlPort (url : String) : Option Nat :=
  let cs := url.toList
  if httpLocalhost.isPrefixOf cs then
    let digits := (cs.drop httpLocalhost.length).takeWhile Char.isDigit
    if digits.isEmpty then none
    else some (digits.foldl (fun n c => n * 10 + (c.toNat - 48)) 0)
  else none

/-- Scanning count of non-overlapping pattern occurrences: the skip counter
carries how many characters of the last match are still to be passed
over. -/
def countFrom (pat : List Char) : List Char → Nat → Nat
| [], _ => 0
| c :: rest, skip =>
  if skip != 0 then countFrom pat rest (skip - 1)
  else if pat.isPrefixOf (c :: rest) then 1 + countFrom pat rest (pat.length - 1)
  else countFrom pat rest 0

/-- Python str.count for a nonempty pattern: the number of non-overlapping
occurrences of pat in s, scanning left to right. -/
def countOcc (pat s : String) : Nat := countFrom pat.toList s.toList 0

/-- Ambient state consulted by run_tests: the text of docker logs
docker-escape-falco, and whether any call in the try block raised. -/
structure TestsEnv where
  falcoLog : String
  raisedExn : Bool

/-- run_tests (deploy_lab.py lines 470-504): counts the CRITICAL and HIGH
markers in the captured log text and returns True whenever the body
completes; the except clause turns any exception into False with no counts
reported.  Zero counts only log a warning. -/
def run_tests (env : TestsEnv) : Option (Nat × Nat) × Bool :=
  if env.raisedExn then (none, false)
  else (some (countOcc "CRITICAL" env.falcoLog, countOcc "HIGH" env.falcoLog),
    true)

/-- The parsed argparse values used to seed the config dict: lab_dir has
the default docker-escape-lab, the two XSIAM flags are optional. -/
structure Args where
  lab_dir : String
  xsiam_url : Option String
  xsiam_key : Option String

/-- The keys of an optional JSON config file that overlap the seeded config
dict; a key absent from the file leaves the seeded value in place. -/
structure FileConfig where
  lab_directory : Option String
  xsiam_url : Option String
  xsiam_api_key : Option String

/-- The config dict handed to LabDeployment. -/
structure Config where
  lab_directory : String
  xsiam_url : String
  xsiam_api_key : String
deriving DecidableEq

/-- Python or-chaining of an optional flag with a fallback value: None and
the empty string are falsy, so the fallback is used for both. -/
def pyOr (flag : Option String) (fallback : String) : String :=
  match flag with
  | none => fallback
  | some s => if s = "" then fallback else s

/-- Configuration loading in main (deploy_lab.py lines 638-652): the dict
is seeded from flags and environment variables via or-chaining, then
config.update(file_config) lets every key present in the file override the
seeded value. -/
def load_config (args : Args) (envUrl envKey : Option String)
    (fileCfg : Option FileConfig) : Config :=
  let seeded : Config :=
    ⟨args.lab_dir,
     pyOr args.xsiam_url (envUrl.getD ""),
     pyOr args.xsiam_key (envKey.getD "")⟩
  match fileCfg with
  | none => seeded
  | some f =>
    ⟨f.lab_directory.getD seeded.lab_directory,
     f.xsiam_url.getD seeded.xsiam_url,
     f.xsiam_api_key.getD seeded.xsiam_api_key⟩

/-- Everything a full run of deploy consumes: the system state for the
prerequisite checks, the lab directory name and clock and filesystem for
the artifact steps, flags telling whether each file-writing step completed
without an I/O exception, the state behind deploy_services, the probe
outcomes per service name and attempt, and the state behind run_tests. -/
structure DeployEnv where
  sys : SysEnv
  labDir : String
  now : Nat
  fs : FS
  structOk : Bool
  composeWriteOk : Bool
  configsWriteOk : Bool
  scriptsWriteOk : Bool
  services : ServicesEnv
  probes : String → Nat → ProbeOutcome
  tests : TestsEnv
  summaryWriteOk : Bool

/-- The two readiness targets with their probe outcome streams. -/
def readiness_services (probes : String → Nat → ProbeOutcome) :
    List (String × (Nat → ProbeOutcome)) :=
  [("Elasticsearch", probes "Elasticsearch"),
   ("Kibana", probes "Kibana")]

/-- The step names of deploy (deploy_lab.py lines 583-593), in order. -/
def deployStepNames : List String :=
  ["Prerequisites Check", "Project Structure", "Docker Compose",
   "Configurations", "Automation Scripts", "Service Deployment",
   "Service Readiness", "Initial Tests", "Summary Generation"]

/-- LabDeployment.deploy (deploy_lab.py lines 579-607) as a run of the step
loop over the nine steps.  Only deploy_services can raise out of its step:
every other step method catches all exceptions and returns a Bool; the
Bool write flags stand for the try blocks of the pure file-writing
steps. -/
def deployExc (env : DeployEnv) :
    List String × Except PyExn (List String × Bool) :=
  runStepsExc
    [("Prerequisites Check", Except.ok (check_prerequisites env.sys).ok),
     ("Project Structure", Except.ok (env.structOk &&
        (create_project_structure env.labDir env.now env.fs).2)),
     ("Docker Compose", Except.ok env.composeWriteOk),
     ("Configurations", Except.ok env.configsWriteOk),
     ("Automation Scripts", Except.ok env.scriptsWriteOk),
     ("Service Deployment", deploy_services env.services),
     ("Service Readiness", Except.ok
        (wait_for_services (readiness_services env.probes)).2),
     ("Initial Tests", Except.ok (run_tests env.tests).2),
     ("Summary Generation", Except.ok env.summaryWriteOk)]

/-! Helper lemmas about the step loop. -/

/-- Prepending a step whose action returned True: the step loop invokes it,
records it as completed, and continues with the rest. -/
theorem runStepsExc_cons_ok_true (name : String)
    (rest : List (String × Except PyExn Bool)) :
    runStepsExc ((name, Except.ok true) :: rest) =
      ((name :: (runStepsExc rest).1),
        match (runStepsExc rest).2 with
        | Except.error e => Except.error e
        | Except.ok (done, b) => Except.ok (name :: done, b)) := rfl

/-- A prefix of steps that all returned True only adds its names in front
of the executed and completed records of the remaining run. -/
theorem runStepsExc_ok_true_front (pre : List (String × Except PyExn Bool))
    (hpre : ∀ p ∈ pre, p.2 = Except.ok true)
    (rest : List (String × Except PyExn Bool)) :
    runStepsExc (pre ++ rest) =
      (pre.map Prod.fst ++ (runStepsExc rest).1,
        match (runStepsExc rest).2 with
        | Except.error e => Except.error e
        | Except.ok (done, b) => Except.ok (pre.map Prod.fst ++ done, b)) := by
  induction pre with
  | nil =>
    simp only [List.nil_append, List.map_nil]
    rcases h : runStepsExc rest with ⟨ex, res⟩
    cases res with
    | error e => rfl
    | ok p => obtain ⟨done, b⟩ := p; simp
  | cons hd tl ih =>
    have hhd : hd.2 = Except.ok true := hpre hd (by simp)
    have htl : ∀ p ∈ tl, p.2 = Except.ok true :=
      fun p hp => hpre p (by simp [hp])
    obtain ⟨n, r⟩ := hd
    simp only at hhd
    subst hhd
    rw [List.cons_append, runStepsExc_cons_ok_true, ih htl]
    cases h : (runStepsExc rest).2 with
    | error e => simp [h]
    | ok p => obtain ⟨done, b⟩ := p; simp [h]

/-- Claim C1: in every run of the deploy pipeline, if a step returns
failure after a prefix of steps that all succeeded, then the failing step
is the last one executed (no later step runs), its name is not appended to
the completed-steps record, the record holds exactly the names of the
succeeding prefix in pipeline order, and the overall result is failure.
The second conjunct instantiates this on deploy itself when the Docker
Compose write step is the one that fails. -/
theorem deploy_abort_on_first_failure :
    (∀ (pre : List (String × Except PyExn Bool)) (nm : String)
      (post : List (String × Except PyExn Bool)),
      (∀ p ∈ pre, p.2 = Except.ok true) →
      runStepsExc (pre ++ (nm, Except.ok false) :: post) =
        (pre.map Prod.fst ++ [nm], Except.ok (pre.map Prod.fst, false)))
    ∧ (∀ env : DeployEnv,
      (check_prerequisites env.sys).ok = true →
      env.structOk = true →
      env.composeWriteOk = false →
      deployExc env =
        (["Prerequisites Check", "Project Structure", "Docker Compose"],
          Except.ok (["Prerequisites Check", "Project Structure"], false))) := by
  constructor
  · intro pre nm post hpre
    rw [runStepsExc_ok_true_front pre hpre]
    simp [runStepsExc]
  · intro env h1 h2 h3
    simp [deployExc, runStepsExc, create_project_structure, h1, h2, h3]

/-- Witness for C1: a three-step run whose middle step fails executes only
the first two steps, records only the first, and reports failure. -/
theorem deploy_abort_on_first_failure_witness :
    runStepsExc ([("Prerequisites Check", Except.ok true)] ++
        ("Project Structure", Except.ok false) ::
        [("Docker Compose", Except.ok true)]) =
      (["Prerequisites Check", "Project Structure"],
        Except.ok (["Prerequisites Check"], false)) :=
  deploy_abort_on_first_failure.1 [("Prerequisites Check", Except.ok true)]
    "Project Structure" [("Docker Compose", Except.ok true)] (by simp)

/-! Helper lemmas about the polling loop. -/

/-- One unfolding of the polling loop. -/
theorem pollTarget_step (probe : Nat → ProbeOutcome) (k a : Nat) :
    pollTarget probe (k + 1) a =
      if isReady (probe a) then (1, 0, true)
      else
        (1 + (pollTarget probe k (a + 1)).1,
          (if a < 29 then 1 else 0) + (pollTarget probe k (a + 1)).2.1,
          (pollTarget probe k (a + 1)).2.2) := rfl

/-- A target that is never ready is probed on every remaining attempt, with
a sleep after each attempt except the last (index 29), and ends not
ready. -/
theorem pollTarget_exhausts (probe : Nat → ProbeOutcome)
    (h : ∀ n, isReady (probe n) = false) :
    ∀ k a, a + k = 30 → 1 ≤ k → pollTarget probe k a = (k, k - 1, false) := by
  intro k
  induction k with
  | zero => intro a _ hk; omega
  | succ k ih =>
    intro a ha _
    rcases Nat.eq_zero_or_pos k with hk0 | hkpos
    · subst hk0
      have ha29 : a = 29 := by omega
      subst ha29
      rw [pollTarget_step, h 29]
      simp [pollTarget]
    · have halt : a < 29 := by omega
      have hrec := ih (a + 1) (by omega) hkpos
      rw [pollTarget_step, h a, hrec]
      simp [halt, Prod.ext_iff]
      omega

/-- Claim C2: wait_for_services returns success for every sequence of probe
outcomes; a request exception counts as not ready; a target that is never
ready is probed on all 30 attempts (with 29 sleeps) and reported not ready
by a warning, while the loop still moves on to the following targets; and
the whole pipeline reports success whenever every step other than Service
Readiness succeeds, with no condition at all on the probe outcomes. -/
theorem wait_for_services_always_succeeds :
    (∀ targets, (wait_for_services targets).2 = true)
    ∧ isReady ProbeOutcome.netError = false
    ∧ (∀ probe : Nat → ProbeOutcome, (∀ n, isReady (probe n) = false) →
        pollTarget probe 30 0 = (30, 29, false))
    ∧ (∀ (name : String) (probe : Nat → ProbeOutcome) rest,
        (wait_for_services ((name, probe) :: rest)).1 =
          (name, pollTarget probe 30 0) :: (wait_for_services rest).1)
    ∧ (∀ env : DeployEnv,
        (check_prerequisites env.sys).ok = true →
        env.structOk = true →
        env.composeWriteOk = true →
        env.configsWriteOk = true →
        env.scriptsWriteOk = true →
        deploy_services env.services = Except.ok true →
        env.tests.raisedExn = false →
        env.summaryWriteOk = true →
        deployExc env = (deployStepNames,
          Except.ok (deployStepNames, true))) := by
  refine ⟨fun targets => rfl, rfl, ?_, fun name probe rest => rfl, ?_⟩
  · intro probe h
    exact pollTarget_exhausts probe h 30 0 rfl (by omega)
  · intro env h1 h2 h3 h4 h5 h6 h7 h8
    simp [deployExc, runStepsExc, create_project_structure, wait_for_services,
      run_tests, deployStepNames, h1, h2, h3, h4, h5, h6, h7, h8]

/-- Witness for C2: a probe stream that always raises a request exception
exhausts all 30 attempts with 29 sleeps, and a full deploy run over such
probes still reports overall success with every step completed. -/
theorem wait_for_services_always_succeeds_witness :
    pollTarget (fun _ => ProbeOutcome.netError) 30 0 = (30, 29, false)
    ∧ deployExc ⟨⟨fun _ => true, 0, 64 * 1024 ^ 3⟩, "docker-escape-lab", 42,
        ⟨[], []⟩, true, true, true, true, ⟨none, 0, 0⟩,
        fun _ _ => ProbeOutcome.netError, ⟨"", false⟩, true⟩ =
      (deployStepNames, Except.ok (deployStepNames, true)) :=
  ⟨wait_for_services_always_succeeds.2.2.1 _ (fun _ => rfl),
   wait_for_services_always_succeeds.2.2.2.2 _ rfl rfl rfl rfl rfl rfl rfl rfl⟩

/-- Claim C4: for a target whose probe answers 200 on the 3rd attempt, the
poller issues exactly 3 GET requests, sleeps only twice (so it neither
polls nor sleeps again after attempt 3), reports the target ready, and the
loop still visits every following target. -/
theorem poll_stops_on_success :
    (∀ probe : Nat → ProbeOutcome,
      isReady (probe 0) = false → isReady (probe 1) = false →
      isReady (probe 2) = true →
      pollTarget probe 30 0 = (3, 2, true))
    ∧ (∀ (name : String) (probe : Nat → ProbeOutcome) rest,
      (wait_for_services ((name, probe) :: rest)).1 =
        (name, pollTarget probe 30 0) :: (wait_for_services rest).1) := by
  refine ⟨?_, fun name probe rest => rfl⟩
  intro probe h0 h1 h2
  have e2 : pollTarget probe 28 2 = (1, 0, true) := by
    rw [show (28 : Nat) = 27 + 1 from rfl, pollTarget_step, h2]
    simp
  have e1 : pollTarget probe 29 1 = (2, 1, true) := by
    rw [show (29 : Nat) = 28 + 1 from rfl, pollTarget_step, h1, e2]
    simp
  rw [show (30 : Nat) = 29 + 1 from rfl, pollTarget_step, h0, e1]
  simp

/-- Witness for C4: a probe stream that answers 503 twice and then 200 is
polled exactly 3 times with 2 sleeps. -/
theorem poll_stops_on_success_witness :
    pollTarget
      (fun n => if n < 2 then ProbeOutcome.ok 503 else ProbeOutcome.ok 200)
      30 0 = (3, 2, true) :=
  poll_stops_on_success.1 _ rfl rfl rfl

/-- Counterexample to claim C3: with the flag, the environment variable and
the config file all setting xsiam_url, the resolved value is the config
file value, not the flag value, because config.update(file_config) runs
after the flag and environment seeding. -/
theorem config_precedence_counterexample :
    (load_config ⟨"docker-escape-lab", some "https://flag.example", none⟩
        (some "https://env.example") none
        (some ⟨none, some "https://file.example", none⟩)).xsiam_url
      = "https://file.example"
    ∧ (load_config ⟨"docker-escape-lab", some "https://flag.example", none⟩
        (some "https://env.example") none
        (some ⟨none, some "https://file.example", none⟩)).xsiam_url
      ≠ "https://flag.example" := by
  exact ⟨rfl, by decide⟩

/-- Claim C3 as amended: a key present in the config file overrides the
flag and the environment variable; among the flag and the environment
variable, a non-empty flag wins, an absent or empty flag falls back to the
environment value, and the default (the empty string) applies when both
are absent. -/
theorem config_precedence_file_overrides :
    (∀ (args : Args) (envUrl envKey : Option String) (f : FileConfig) v,
      f.xsiam_url = some v →
      (load_config args envUrl envKey (some f)).xsiam_url = v)
    ∧ (∀ (args : Args) (envUrl envKey : Option String) (f : FileConfig) s,
      f.xsiam_url = none → args.xsiam_url = some s → s ≠ "" →
      (load_config args envUrl envKey (some f)).xsiam_url = s)
    ∧ (∀ (args : Args) (envUrl envKey : Option String) s,
      args.xsiam_url = some s → s ≠ "" →
      (load_config args envUrl envKey none).xsiam_url = s)
    ∧ (∀ (args : Args) (envUrl envKey : Option String),
      args.xsiam_url = none →
      (load_config args envUrl envKey none).xsiam_url = envUrl.getD "")
    ∧ (∀ (args : Args) (envKey : Option String),
      args.xsiam_url = none →
      (load_config args none envKey none).xsiam_url = "") := by
  refine ⟨?_, ?_, ?_, ?_, ?_⟩
  · intro args envUrl envKey f v hf
    simp [load_config, hf]
  · intro args envUrl envKey f s hf ha hs
    simp [load_config, pyOr, hf, ha, hs]
  · intro args envUrl envKey s ha hs
    simp [load_config, pyOr, ha, hs]
  · intro args envUrl envKey ha
    simp [load_config, pyOr, ha]
  · intro args envKey ha
    simp [load_config, pyOr, ha]

/-- Witness for the amended C3: the file value wins over a set flag and a
set environment variable, and with the file key absent a non-empty flag
wins over the environment variable. -/
theorem config_precedence_file_overrides_witness :
    (load_config ⟨"docker-escape-lab", some "https://flag.example", none⟩
        (some "https://env.example") none
        (some ⟨none, some "https://file.example", none⟩)).xsiam_url
      = "https://file.example"
    ∧ (load_config ⟨"docker-escape-lab", some "https://flag.example", none⟩
        (some "https://env.example") none
        (some ⟨none, none, none⟩)).xsiam_url = "https://flag.example" :=
  ⟨config_precedence_file_overrides.1 _ _ _ _ _ rfl,
   config_precedence_file_overrides.2.1 _ _ _ _ _ rfl rfl (by decide)⟩

set_option maxRecDepth 8192 in
/-- Claim C5: whenever its body completes without an exception, run_tests
reports the counts of the two severity markers in the captured log text and
returns success, whatever that text is; in particular a log text holding
exactly two CRITICAL occurrences and no HIGH occurrence yields the counts
(2, 0) and success, and a text with zero occurrences of both markers still
yields success. -/
theorem run_tests_reports_counts_and_succeeds :
    (∀ env : TestsEnv, env.raisedExn = false →
      (run_tests env).2 = true
      ∧ (run_tests env).1 =
          some (countOcc "CRITICAL" env.falcoLog, countOcc "HIGH" env.falcoLog))
    ∧ run_tests ⟨"10:00 CRITICAL Container escape attempt detected and " ++
        "10:01 CRITICAL Docker socket access from container", false⟩
      = (some (2, 0), true)
    ∧ run_tests ⟨"services warming up, nothing yet", false⟩
      = (some (0, 0), true) := by
  refine ⟨?_, by decide, by decide⟩
  intro env h
  simp [run_tests, h]

/-- Witness for C5: the empty log text reports counts (0, 0) and still
returns success. -/
theorem run_tests_reports_counts_and_succeeds_witness :
    (run_tests ⟨"", false⟩).2 = true
    ∧ (run_tests ⟨"", false⟩).1 =
        some (countOcc "CRITICAL" "", countOcc "HIGH" "") :=
  run_tests_reports_counts_and_succeeds.1 ⟨"", false⟩ rfl

/-- Claim C6: check_prerequisites returns failure exactly when docker is
absent, both compose lookups are absent, or the docker info probe exits
non-zero; the first failed check in that order is the one reported; when
those three pass, low free disk below the fixed 10 GB threshold only
raises the warning flag and the checker still returns success; and a
failing checker aborts the pipeline as its first step, with nothing
recorded as completed. -/
theorem check_prerequisites_order_and_advisory_disk :
    (∀ env : SysEnv,
      ((check_prerequisites env).ok = false ↔
        (env.onPath "docker" = false
          ∨ (env.onPath "docker-compose" = false
              ∧ env.onPath "docker compose" = false)
          ∨ env.dockerInfoExit ≠ 0)))
    ∧ (∀ env : SysEnv,
      ((check_prerequisites env).firstFatal = some PrereqFailure.dockerMissing
        ↔ env.onPath "docker" = false))
    ∧ (∀ env : SysEnv,
      ((check_prerequisites env).firstFatal = some PrereqFailure.composeMissing
        ↔ (env.onPath "docker" = true
            ∧ env.onPath "docker-compose" = false
            ∧ env.onPath "docker compose" = false)))
    ∧ (∀ env : SysEnv,
      ((check_prerequisites env).firstFatal = some PrereqFailure.daemonDown
        ↔ (env.onPath "docker" = true
            ∧ (env.onPath "docker-compose" = true
                ∨ env.onPath "docker compose" = true)
            ∧ env.dockerInfoExit ≠ 0)))
    ∧ (∀ env : SysEnv,
      env.onPath "docker" = true →
      (env.onPath "docker-compose" = true ∨ env.onPath "docker compose" = true) →
      env.dockerInfoExit = 0 →
      (check_prerequisites env).ok = true
        ∧ (check_prerequisites env).lowDiskWarning =
            decide (env.freeBytes < 10 * 1024 ^ 3))
    ∧ (∀ env : DeployEnv, (check_prerequisites env.sys).ok = false →
      deployExc env = (["Prerequisites Check"], Except.ok ([], false))) := by
  refine ⟨?_, ?_, ?_, ?_, ?_, ?_⟩
  · intro env
    cases hdk : env.onPath "docker" <;>
      cases hdc : env.onPath "docker-compose" <;>
      cases hds : env.onPath "docker compose" <;>
      by_cases he : env.dockerInfoExit = 0 <;>
      simp [check_prerequisites, hdk, hdc, hds, he]
  · intro env
    cases hdk : env.onPath "docker" <;>
      cases hdc : env.onPath "docker-compose" <;>
      cases hds : env.onPath "docker compose" <;>
      by_cases he : env.dockerInfoExit = 0 <;>
      simp [check_prerequisites, hdk, hdc, hds, he]
  · intro env
    cases hdk : env.onPath "docker" <;>
      cases hdc : env.onPath "docker-compose" <;>
      cases hds : env.onPath "docker compose" <;>
      by_cases he : env.dockerInfoExit = 0 <;>
      simp [check_prerequisites, hdk, hdc, hds, he]
  · intro env
    cases hdk : env.onPath "docker" <;>
      cases hdc : env.onPath "docker-compose" <;>
      cases hds : env.onPath "docker compose" <;>
      by_cases he : env.dockerInfoExit = 0 <;>
      simp [check_prerequisites, hdk, hdc, hds, he]
  · intro env hdk hcomp he
    rcases hcomp with hdc | hds
    · simp [check_prerequisites, hdk, hdc, he]
    · cases hdc : env.onPath "docker-compose" <;>
        simp [check_prerequisites, hdk, hdc, hds, he]
  · intro env h
    simp [deployExc, runStepsExc, h]

/-- Witness for C6: with all tools present, the daemon up and only 5 GB
free, the checker warns about disk space and still returns success; and a
system with docker absent makes the checker fail, which aborts a deploy run
at the first step. -/
theorem check_prerequisites_order_and_advisory_disk_witness :
    ((check_prerequisites ⟨fun _ => true, 0, 5 * 1024 ^ 3⟩).ok = true
      ∧ (check_prerequisites ⟨fun _ => true, 0, 5 * 1024 ^ 3⟩).lowDiskWarning =
          decide ((5 : Nat) * 1024 ^ 3 < 10 * 1024 ^ 3))
    ∧ deployExc ⟨⟨fun _ => false, 0, 0⟩, "docker-escape-lab", 0, ⟨[], []⟩,
        true, true, true, true, ⟨none, 0, 0⟩, fun _ _ => ProbeOutcome.netError,
        ⟨"", false⟩, true⟩ =
      (["Prerequisites Check"], Except.ok ([], false)) :=
  ⟨check_prerequisites_order_and_advisory_disk.2.2.2.2.1 _ rfl (Or.inl rfl) rfl,
   check_prerequisites_order_and_advisory_disk.2.2.2.2.2 _ rfl⟩

/-! Helper lemmas about the filesystem model. -/

/-- insertDir keeps every directory already present. -/
theorem mem_insertDir_of_mem {ds : List (List String)} {x d : List String}
    (h : x ∈ ds) : x ∈ insertDir ds d := by
  unfold insertDir
  split
  · exact h
  · exact List.mem_append_left _ h

/-- insertDir makes its argument present. -/
theorem self_mem_insertDir (ds : List (List String)) (d : List String) :
    d ∈ insertDir ds d := by
  unfold insertDir
  split
  · assumption
  · simp

/-- Folding insertDir keeps old directories and adds every inserted one. -/
theorem mem_foldl_insertDir (l : List (List String)) :
    ∀ ds x, (x ∈ ds ∨ x ∈ l) → x ∈ l.foldl insertDir ds := by
  induction l with
  | nil =>
    intro ds x h
    rcases h with h | h
    · exact h
    · cases h
  | cons a l ih =>
    intro ds x h
    rw [List.foldl_cons]
    rcases h with h | h
    · exact ih _ _ (Or.inl (mem_insertDir_of_mem h))
    · rcases List.mem_cons.mp h with rfl | h
      · exact ih _ _ (Or.inl (self_mem_insertDir ds x))
      · exact ih _ _ (Or.inr h)

/-- Folding insertDir over directories that are all already present changes
nothing. -/
theorem foldl_insertDir_of_subset (l : List (List String)) :
    ∀ ds, (∀ x ∈ l, x ∈ ds) → l.foldl insertDir ds = ds := by
  induction l with
  | nil => intro ds _; rfl
  | cons a l ih =>
    intro ds h
    have ha : insertDir ds a = ds := by
      unfold insertDir
      simp [h a (by simp)]
    rw [List.foldl_cons, ha]
    exact ih ds (fun x hx => h x (by simp [hx]))

/-- mkdirP keeps every directory already present. -/
theorem mem_dirs_mkdirP {x : List String} {fs : FS} (p : List String)
    (h : x ∈ fs.dirs) : x ∈ (mkdirP p fs).dirs :=
  mem_foldl_insertDir _ _ _ (Or.inl h)

/-- A nonempty path is among its own leading portions. -/
theorem self_mem_prefixesOf :
    ∀ (a : String) (rest : List String), (a :: rest) ∈ prefixesOf (a :: rest) := by
  intro a rest
  induction rest generalizing a with
  | nil => simp [prefixesOf]
  | cons b rest ih =>
    rw [prefixesOf]
    refine List.mem_cons.mpr (Or.inr ?_)
    exact List.mem_map.mpr ⟨b :: rest, ih b, rfl⟩

/-- mkdirP creates every leading portion of its path. -/
theorem prefixes_mem_mkdirP {x : List String} (p : List String) (fs : FS)
    (hx : x ∈ prefixesOf p) : x ∈ (mkdirP p fs).dirs :=
  mem_foldl_insertDir _ _ _ (Or.inr hx)

/-- mkdirP never touches files. -/
theorem mkdirP_files (p : List String) (fs : FS) :
    (mkdirP p fs).files = fs.files := rfl

/-- mkdirP on a path whose whole directory chain already exists changes
nothing: creating an existing directory is not an error and has no
effect. -/
theorem mkdirP_eq_of_mem (p : List String) (fs : FS)
    (h : ∀ x ∈ prefixesOf p, x ∈ fs.dirs) : mkdirP p fs = fs := by
  unfold mkdirP
  rw [foldl_insertDir_of_subset _ _ h]

/-- The directory-creation loop never touches files. -/
theorem mkdirTree_files (labDir : String) (fs : FS) :
    (mkdirTree labDir fs).files = fs.files := by
  unfold mkdirTree
  generalize labSubdirs = l
  induction l generalizing fs with
  | nil => rfl
  | cons d l ih =>
    rw [List.foldl_cons]
    exact ih (mkdirP (labDir :: d) fs)

/-- The directory-creation loop keeps every directory already present. -/
theorem mem_dirs_foldTree (labDir : String) (l : List (List String)) :
    ∀ (fs : FS) x, x ∈ fs.dirs →
      x ∈ (l.foldl (fun acc d => mkdirP (labDir :: d) acc) fs).dirs := by
  induction l with
  | nil => intro fs x h; exact h
  | cons a l ih =>
    intro fs x h
    rw [List.foldl_cons]
    exact ih _ _ (mem_dirs_mkdirP _ h)

/-- After the directory-creation loop, the whole directory chain of every
requested subdirectory is present. -/
theorem prefixes_mem_foldTree (labDir : String) (l : List (List String)) :
    ∀ (fs : FS), ∀ d ∈ l, ∀ x ∈ prefixesOf (labDir :: d),
      x ∈ (l.foldl (fun acc d => mkdirP (labDir :: d) acc) fs).dirs := by
  induction l with
  | nil => simp
  | cons a l ih =>
    intro fs d hd x hx
    rw [List.foldl_cons]
    rcases List.mem_cons.mp hd with rfl | hd
    · exact mem_dirs_foldTree _ _ _ _ (prefixes_mem_mkdirP _ _ hx)
    · exact ih _ d hd x hx

/-- The directory-creation loop is the identity when the whole chain of
every requested subdirectory already exists. -/
theorem foldTree_eq_of_mem (labDir : String) (l : List (List String)) :
    ∀ fs : FS, (∀ d ∈ l, ∀ x ∈ prefixesOf (labDir :: d), x ∈ fs.dirs) →
      l.foldl (fun acc d => mkdirP (labDir :: d) acc) fs = fs := by
  induction l with
  | nil => intro fs _; rfl
  | cons a l ih =>
    intro fs h
    rw [List.foldl_cons, mkdirP_eq_of_mem _ _ (h a (by simp))]
    exact ih fs (fun d hd => h d (by simp [hd]))

/-- Claim C8: the directory-creation step of the Artifact Writer is
idempotent: a second run over the tree the first run produced is the
identity, and the step never errors (create_project_structure always
returns True on its Bool channel in the exception-free model, where mkdir
with exist_ok accepts an existing directory). -/
theorem mkdir_tree_idempotent (labDir : String) (fs : FS) :
    mkdirTree labDir (mkdirTree labDir fs) = mkdirTree labDir fs
    ∧ (∀ now, (create_project_structure labDir now fs).2 = true) := by
  constructor
  · exact foldTree_eq_of_mem labDir labSubdirs (mkdirTree labDir fs)
      (fun d hd x hx => prefixes_mem_foldTree labDir labSubdirs fs d hd x hx)
  · intro now; rfl

/-- Rebasing the renamed files: filtering the renamed list under the backup
name and stripping it yields exactly the original files under the lab
directory with the lab directory stripped, provided no original file
already sat under the backup name. -/
theorem filesUnder_rename (labDir bk : String)
    (files : List (List String × String))
    (hfresh : ∀ f ∈ files, [bk].isPrefixOf f.1 = false) :
    ((files.map (fun f => (rebasePath [labDir] [bk] f.1, f.2))).filter
        (fun f => [bk].isPrefixOf f.1)).map (fun f => (f.1.drop 1, f.2))
      = (files.filter (fun f => [labDir].isPrefixOf f.1)).map
          (fun f => (f.1.drop 1, f.2)) := by
  induction files with
  | nil => rfl
  | cons f fl ih =>
    have hf := hfresh f (by simp)
    have hfl : ∀ g ∈ fl, [bk].isPrefixOf g.1 = false :=
      fun g hg => hfresh g (by simp [hg])
    cases hp : [labDir].isPrefixOf f.1 with
    | true =>
      have hbk : [bk].isPrefixOf (rebasePath [labDir] [bk] f.1) = true := by
        simp [rebasePath, hp, List.isPrefixOf]
      have hdrop : (rebasePath [labDir] [bk] f.1).drop 1 = f.1.drop 1 := by
        simp [rebasePath, hp]
      simp only [List.map_cons, List.filter_cons, hbk, hp, if_pos, if_true,
        List.map_cons, hdrop]
      rw [ih hfl]
    | false =>
      have hne : rebasePath [labDir] [bk] f.1 = f.1 := by
        simp [rebasePath, hp]
      simp only [List.map_cons, List.filter_cons, hne, hf, hp,
        Bool.false_eq_true, if_false]
      exact ih hfl

/-- Claim C7: when the lab directory already exists, create_project_structure
renames it to the timestamped backup name before creating the new tree: the
files under the backup name are exactly the files that were under the lab
directory, with identical relative paths and identical bytes; no file is
deleted (the file count is unchanged); every requested subdirectory of the
fresh tree exists afterwards; and the backup directory itself exists when
the lab directory was a directory.  The freshness hypothesis says no
pre-existing file already sat under the backup name, which is what the
rename of the operating system requires. -/
theorem backup_rename_preserves_content (labDir : String) (now : Nat) (fs : FS)
    (hex : pathExists [labDir] fs = true)
    (hfresh : ∀ f ∈ fs.files, [backupName labDir now].isPrefixOf f.1 = false) :
    filesUnder [backupName labDir now] (create_project_structure labDir now fs).1
        = filesUnder [labDir] fs
    ∧ (create_project_structure labDir now fs).1.files.length = fs.files.length
    ∧ (∀ d ∈ labSubdirs,
        (labDir :: d) ∈ (create_project_structure labDir now fs).1.dirs)
    ∧ ([labDir] ∈ fs.dirs →
        [backupName labDir now] ∈ (create_project_structure labDir now fs).1.dirs) := by
  have hcr : (create_project_structure labDir now fs).1 =
      mkdirTree labDir (renameFS [labDir] [backupName labDir now] fs) := by
    simp [create_project_structure, hex]
  have hren : (renameFS [labDir] [backupName labDir now] fs).files =
      fs.files.map (fun f => (rebasePath [labDir] [backupName labDir now] f.1, f.2)) := rfl
  refine ⟨?_, ?_, ?_, ?_⟩
  · rw [hcr]
    unfold filesUnder
    rw [mkdirTree_files, hren]
    simpa using filesUnder_rename labDir (backupName labDir now) fs.files hfresh
  · rw [hcr, mkdirTree_files, hren]
    exact List.length_map _ _
  · intro d hd
    rw [hcr]
    exact prefixes_mem_foldTree labDir labSubdirs _ d hd _
      (self_mem_prefixesOf labDir d)
  · intro hmem
    rw [hcr]
    have hb : [backupName labDir now] ∈
        (renameFS [labDir] [backupName labDir now] fs).dirs := by
      refine List.mem_map.mpr ⟨[labDir], hmem, ?_⟩
      simp [rebasePath, List.isPrefixOf]
    exact mem_dirs_foldTree labDir labSubdirs _ _ hb

/-- Witness for C7: a concrete filesystem with one file inside the lab
directory and one outside; after deployment the backup holds exactly the
old lab file, no file is lost, the fresh tree exists and the backup
directory is present. -/
theorem backup_rename_preserves_content_witness :
    filesUnder [backupName "docker-escape-lab" 7]
        (create_project_structure "docker-escape-lab" 7
          ⟨[(["docker-escape-lab", "data", "old.txt"], "payload"),
            (["elsewhere", "y"], "other")], [["docker-escape-lab"]]⟩).1
      = filesUnder ["docker-escape-lab"]
          ⟨[(["docker-escape-lab", "data", "old.txt"], "payload"),
            (["elsewhere", "y"], "other")], [["docker-escape-lab"]]⟩
    ∧ (create_project_structure "docker-escape-lab" 7
          ⟨[(["docker-escape-lab", "data", "old.txt"], "payload"),
            (["elsewhere", "y"], "other")], [["docker-escape-lab"]]⟩).1.files.length
      = 2
    ∧ [backupName "docker-escape-lab" 7] ∈
        (create_project_structure "docker-escape-lab" 7
          ⟨[(["docker-escape-lab", "data", "old.txt"], "payload"),
            (["elsewhere", "y"], "other")], [["docker-escape-lab"]]⟩).1.dirs := by
  refine ⟨(backup_rename_preserves_content "docker-escape-lab" 7 _
      (by decide) (by decide)).1,
    ((backup_rename_preserves_content "docker-escape-lab" 7 _
      (by decide) (by decide)).2.1).trans (by decide),
    (backup_rename_preserves_content "docker-escape-lab" 7 _
      (by decide) (by decide)).2.2.2 (by decide)⟩

set_option maxRecDepth 8192 in
/-- Counterexample to claim C9: the Readiness Poller probes exactly two
distinct local ports, not three; the services dict has exactly two
entries. -/
theorem readiness_ports_not_three :
    ¬ ((readiness_targets.filterMap (fun t => urlPort t.url)).eraseDups.length = 3)
    ∧ ¬ (readiness_targets.length = 3) := by
  exact ⟨by decide, by decide⟩

set_option maxRecDepth 8192 in
/-- Claim C9 as amended: every probe the Readiness Poller issues is a plain
HTTP GET to localhost, and the probes target exactly two fixed local ports,
9200 and 5601. -/
theorem readiness_ports_two_localhost :
    readiness_targets.map (fun t => urlPort t.url) = [some 9200, some 5601]
    ∧ (readiness_targets.filterMap (fun t => urlPort t.url)).eraseDups
        = [9200, 5601]
    ∧ readiness_targets.all
        (fun t => t.method == "GET" && httpLocalhost.isPrefixOf t.url.toList)
      = true := by
  refine ⟨by decide, by decide, by decide⟩

/-- Claim C10: deploy_services converts only CalledProcessError (the
non-zero exit of the two docker compose calls) into the Bool failure
result; an OSError raised by the chdir into the lab directory is not
caught: it propagates out of the step, and in the step loop it propagates
out of the whole run as an exception instead of the logged
failed-at-step Bool failure. -/
theorem deploy_services_uncaught_chdir_exception :
    (∀ env : ServicesEnv, env.chdirExn = none → env.pullExit ≠ 0 →
      deploy_services env = Except.ok false)
    ∧ (∀ env : ServicesEnv, env.chdirExn = none → env.pullExit = 0 →
      env.upExit ≠ 0 → deploy_services env = Except.ok false)
    ∧ (∀ env : ServicesEnv, env.chdirExn = none → env.pullExit = 0 →
      env.upExit = 0 → deploy_services env = Except.ok true)
    ∧ (∀ (env : ServicesEnv) msg, env.chdirExn = some (PyExn.osError msg) →
      deploy_services env = Except.error (PyExn.osError msg))
    ∧ (∀ (env : ServicesEnv) msg pre post,
      env.chdirExn = some (PyExn.osError msg) →
      (∀ p ∈ pre, p.2 = Except.ok true) →
      (runStepsExc (pre ++ ("Service Deployment", deploy_services env) :: post)).2
        = Except.error (PyExn.osError msg)) := by
  have hrun : ∀ (env : ServicesEnv) msg,
      env.chdirExn = some (PyExn.osError msg) →
      deploy_services env = Except.error (PyExn.osError msg) := by
    intro env msg h
    simp [deploy_services, h]
  refine ⟨?_, ?_, ?_, hrun, ?_⟩
  · intro env h1 h2
    simp [deploy_services, h1, h2]
  · intro env h1 h2 h3
    simp [deploy_services, h1, h2, h3]
  · intro env h1 h2 h3
    simp [deploy_services, h1, h2, h3]
  · intro env msg pre post h hpre
    rw [runStepsExc_ok_true_front pre hpre, hrun env msg h]
    simp [runStepsExc]

/-- Witness for C10: a failed chdir (the lab directory is missing)
propagates the OSError out of a run whose earlier steps all succeeded,
instead of producing the Bool failure result. -/
theorem deploy_services_uncaught_chdir_exception_witness :
    deploy_services ⟨some (PyExn.osError "No such file or directory"), 0, 0⟩
      = Except.error (PyExn.osError "No such file or directory")
    ∧ (runStepsExc ([("Prerequisites Check", Except.ok true)] ++
        ("Service Deployment",
          deploy_services ⟨some (PyExn.osError "enoent"), 0, 0⟩) ::
        [("Service Readiness", Except.ok true)])).2
      = Except.error (PyExn.osError "enoent") :=
  ⟨deploy_services_uncaught_chdir_exception.2.2.2.1 _ _ rfl,
   deploy_services_uncaught_chdir_exception.2.2.2.2 _ _ _ _ rfl (by simp)⟩

end DeployLab
